import Mathlib

/-!
# Verification of the retirement-calculator simulation engine

Shallow embedding of the core financial-simulation functions of the
retirement calculator (files `app.py` and `appv1.py`), over exact
rational arithmetic, together with theorems settling the specification
claims about them.
-/

namespace RetirementCalc

/-- Embedding of `calculate_bond_tent_allocation` (app.py).  The Python
function reads the enclosing-scope flag `use_bond_tent`, which is passed
here as an explicit first argument. -/
def calculate_bond_tent_allocation (use_bond_tent : Bool) (age start_age
    retirement_age initial_stock final_bond : ℚ) : ℚ × ℚ :=
  if use_bond_tent = false ∨ age < start_age then
    (initial_stock, 1 - initial_stock)
  else if retirement_age ≤ age then
    (1 - final_bond, final_bond)
  else
    let progress := (age - start_age) / (retirement_age - start_age)
    let stock_reduction := initial_stock - (1 - final_bond)
    let current_stock := initial_stock - stock_reduction * progress
    (current_stock, 1 - current_stock)

/-- Enclosing-scope values read by `calculate_retirement_balance` (app.py). -/
structure AccumEnv where
  use_bond_tent : Bool
  current_age : ℕ
  bond_tent_start_age : ℚ
  target_retirement_age : ℚ
  initial_stock : ℚ
  final_bond : ℚ
  retirement_return : ℚ

/-- The blended annual return used by one loop iteration of
`calculate_retirement_balance` (app.py, lines 162-172). -/
def blended_return_year (E : AccumEnv) (annual_rate : ℚ) (use_tent : Bool)
    (year : ℕ) : ℚ :=
  if use_tent then
    let sb := calculate_bond_tent_allocation E.use_bond_tent
      ((E.current_age : ℚ) + year) E.bond_tent_start_age
      E.target_retirement_age E.initial_stock E.final_bond
    sb.1 * annual_rate + sb.2 * E.retirement_return
  else annual_rate

/-- The `for year in range(years)` loop of `calculate_retirement_balance`
(app.py, lines 159-179), with the loop counter made explicit. -/
def crb_loop (E : AccumEnv) (monthly_contrib annual_rate : ℚ)
    (use_tent : Bool) : ℕ → ℚ → ℕ → ℚ
  | 0, balance, _ => balance
  | n + 1, balance, year =>
    crb_loop E monthly_contrib annual_rate use_tent n
      (balance * (1 + blended_return_year E annual_rate use_tent year)
        + monthly_contrib * 12)
      (year + 1)

/-- Embedding of `calculate_retirement_balance` (app.py, lines 155-181). -/
def calculate_retirement_balance (E : AccumEnv) (principal monthly_contrib : ℚ)
    (years : ℕ) (annual_rate : ℚ) (use_tent : Bool) : ℚ :=
  crb_loop E monthly_contrib annual_rate use_tent years principal 0

/-- Embedding of `calculate_retirement_balance` (appv1.py, lines 103-118):
closed-form future value with monthly-compounded contributions. -/
def calculate_retirement_balance_v1 (principal monthly_contrib : ℚ)
    (years : ℕ) (annual_rate : ℚ) : ℚ :=
  let monthly_rate := annual_rate / 12
  let months := years * 12
  let fv_principal := principal * (1 + annual_rate) ^ years
  let fv_contributions :=
    if 0 < monthly_rate then
      monthly_contrib * (((1 + monthly_rate) ^ months - 1) / monthly_rate)
    else monthly_contrib * (months : ℚ)
  fv_principal + fv_contributions

/-- The spec's accumulation recurrence (spec §4.2, step 3): one application
per elapsed year of `balance ← balance × (1 + blended_return) + 12 ×
monthly_contribution`, written from the spec's words for comparison with
the source-derived `calculate_retirement_balance`. -/
def spec_accum_recurrence (E : AccumEnv) (monthly_contrib annual_rate : ℚ)
    (use_tent : Bool) (balance : ℚ) (year : ℕ) : ℕ → ℚ
  | 0 => balance
  | n + 1 =>
    spec_accum_recurrence E monthly_contrib annual_rate use_tent
      (balance * (1 + blended_return_year E annual_rate use_tent year)
        + 12 * monthly_contrib)
      (year + 1) n

/-- The spec's flat-rate compounding reference (spec §8 end-to-end scenario):
`balance ← balance × (1 + rate) + add`, year by year. -/
def spec_flat_compound (rate add balance : ℚ) : ℕ → ℚ
  | 0 => balance
  | n + 1 => spec_flat_compound rate add (balance * (1 + rate) + add) n

/-- Result of the withdrawal simulator: either a numeric duration in years,
or the perpetual-fund sentinel (`float('inf')` in the Python source). -/
inductive WResult where
  | perpetual : WResult
  | years : ℚ → WResult
deriving DecidableEq

/-- Arguments of `calculate_withdrawal_years_enhanced` (app.py, line 183).
`ss_start_age = none` models Python `None`; the field `balance` is the
starting balance, against which the 80% perpetual threshold is measured. -/
structure WParams where
  balance : ℚ
  monthly_withdrawal : ℚ
  annual_rate : ℚ
  monthly_ss : ℚ
  ss_start_age : Option ℚ
  retirement_age : ℚ
  use_guardrails : Bool
  lower_bound : ℚ
  upper_bound : ℚ

/-- Loop state of `calculate_withdrawal_years_enhanced`. -/
structure WState where
  current_balance : ℚ
  months : ℕ
  current_withdrawal_rate : ℚ
  annual_withdrawal : ℚ
  consecutive_growth_months : ℕ
deriving DecidableEq

/-- The Social Security income of one month (app.py, line 205): Python
`monthly_ss if (ss_start_age and current_retirement_age >= ss_start_age)
else 0`, with Python truthiness of `ss_start_age` made explicit. -/
def ss_income (P : WParams) (current_retirement_age : ℚ) : ℚ :=
  match P.ss_start_age with
  | none => 0
  | some a => if a ≠ 0 ∧ a ≤ current_retirement_age then P.monthly_ss else 0

/-- The guardrail block of `calculate_withdrawal_years_enhanced`
(app.py, lines 208-218), returning the (possibly adjusted) pair of
withdrawal rate and annual withdrawal. -/
def guardrail_update (P : WParams) (months : ℕ)
    (balance rate annual : ℚ) : ℚ × ℚ :=
  if P.use_guardrails = true ∧ months % 12 = 0 ∧ 0 < months then
    let current_implied_rate :=
      if 0 < balance then annual / balance else P.upper_bound
    if P.upper_bound < current_implied_rate then
      let r := max P.lower_bound (rate * (95 / 100))
      (r, balance * r)
    else if current_implied_rate < P.lower_bound ∧ rate < P.upper_bound then
      let r := min P.upper_bound (rate * (105 / 100))
      (r, balance * r)
    else (rate, annual)
  else (rate, annual)

/-- One iteration of the `while` loop of
`calculate_withdrawal_years_enhanced` (app.py, lines 197-230): advance the
month, apply growth, adjust by guardrails, subtract the net withdrawal, and
update the consecutive-growth counter. -/
def monthStep (P : WParams) (s : WState) : WState :=
  let months := s.months + 1
  let current_retirement_age := P.retirement_age + (months : ℚ) / 12
  let grown := s.current_balance * (1 + P.annual_rate / 12)
  let ra := guardrail_update P months grown
    s.current_withdrawal_rate s.annual_withdrawal
  let monthly_net_withdrawal :=
    max 0 (ra.2 / 12 - ss_income P current_retirement_age)
  let new_balance := grown - monthly_net_withdrawal
  let consec :=
    if P.balance * (8 / 10) < new_balance then
      s.consecutive_growth_months + 1
    else 0
  { current_balance := new_balance, months := months,
    current_withdrawal_rate := ra.1, annual_withdrawal := ra.2,
    consecutive_growth_months := consec }

/-- The `while current_balance > 0 and months < 1200` loop of
`calculate_withdrawal_years_enhanced`, with explicit fuel; the fuel `1201`
used below strictly exceeds the 1200-month guard, so the guard, not the
fuel, decides every exit exactly as in the source. -/
def wloop (P : WParams) : ℕ → WState → WResult
  | 0, s => .years ((s.months : ℚ) / 12)
  | fuel + 1, s =>
    if 0 < s.current_balance ∧ s.months < 1200 then
      let t := monthStep P s
      if 420 ≤ t.consecutive_growth_months then .perpetual
      else wloop P fuel t
    else .years ((s.months : ℚ) / 12)

/-- Initial loop state of `calculate_withdrawal_years_enhanced`
(app.py, lines 187-195). -/
def initState (P : WParams) : WState :=
  { current_balance := P.balance, months := 0,
    current_withdrawal_rate := P.monthly_withdrawal * 12 / P.balance,
    annual_withdrawal := P.monthly_withdrawal * 12,
    consecutive_growth_months := 0 }

/-- Embedding of `calculate_withdrawal_years_enhanced`
(app.py, lines 183-232). -/
def calculate_withdrawal_years_enhanced (P : WParams) : WResult :=
  wloop P 1201 (initState P)

/-- The simulator state after `n` executed months. -/
def stateAt (P : WParams) (n : ℕ) : WState :=
  (monthStep P)^[n] (initState P)

/-- Deterministic model of the global numpy random generator: a stream of
raw normal samples together with the current read position. -/
structure RNG where
  stream : ℕ → ℚ
  pos : ℕ

/-- One draw of `np.random.normal(mu, sigma)`: consume the next raw sample
`z` of the stream and return `mu + sigma * z`. -/
def normalDraw (g : RNG) (mu sigma : ℚ) : ℚ × RNG :=
  (mu + sigma * g.stream g.pos, ⟨g.stream, g.pos + 1⟩)

/-- `np.random.normal(mu, sigma, n)`: `n` successive draws. -/
def normalDraws (mu sigma : ℚ) : ℕ → RNG → List ℚ × RNG
  | 0, g => ([], g)
  | n + 1, g =>
    let xg := normalDraw g mu sigma
    let rest := normalDraws mu sigma n xg.2
    (xg.1 :: rest.1, rest.2)

/-- Enclosing-scope parameters read by `run_monte_carlo_simulation`
(app.py, lines 234-288). -/
structure MCParams where
  current_age : ℕ
  target_retirement_age : ℕ
  current_savings : ℚ
  monthly_contribution : ℚ
  monthly_ss : ℚ
  ss_start_age : Option ℚ
  working_return : ℚ
  inflation_rate : ℚ
  retirement_return : ℚ
  withdrawal_rate : ℚ
  use_guardrails : Bool
  guardrail_lower : ℚ
  guardrail_upper : ℚ
  use_bond_tent : Bool
  bond_tent_start_age : ℚ
  initial_stock : ℚ
  final_bond : ℚ

/-- One Monte Carlo trial record (app.py, lines 282-286). -/
structure TrialRecord where
  balance_at_retirement : ℚ
  years_lasted : WResult
  monthly_withdrawal : ℚ
deriving DecidableEq

/-- The per-trial accumulation loop of `run_monte_carlo_simulation`
(app.py, lines 246-262), threading the global random generator: when the
bond tent is enabled, each year consumes one fresh bond-return draw. -/
def mcAccum (M : MCParams) : List ℚ → ℚ → ℕ → RNG → ℚ × RNG
  | [], balance, _, g => (balance, g)
  | wr :: rest, balance, year, g =>
    if M.use_bond_tent then
      let sb := calculate_bond_tent_allocation M.use_bond_tent
        ((M.current_age : ℚ) + year) M.bond_tent_start_age
        (M.target_retirement_age : ℚ) M.initial_stock M.final_bond
      let bg := normalDraw g M.retirement_return (25 / 1000)
      let blended := sb.1 * wr + sb.2 * bg.1
      mcAccum M rest (balance * (1 + blended) + M.monthly_contribution * 12)
        (year + 1) bg.2
    else
      mcAccum M rest (balance * (1 + wr) + M.monthly_contribution * 12)
        (year + 1) g

/-- One Monte Carlo trial (the body of the `for sim in range(num_sims)`
loop, app.py, lines 238-286).  The incoming generator state `_g` is the
global numpy state left by earlier trials; the trial starts with
`np.random.seed(sim)`, which replaces it by the stream determined by the
trial index, so `_g` is discarded.  Returns the trial record and the
generator state left behind for the next trial. -/
def mcTrialG (seedStream : ℕ → ℕ → ℚ) (M : MCParams) (sim : ℕ)
    (_g : RNG) : TrialRecord × RNG :=
  let g0 : RNG := ⟨seedStream sim, 0⟩
  let years_to_retirement := M.target_retirement_age - M.current_age
  let wg := normalDraws M.working_return (17 / 100) years_to_retirement g0
  let bg := mcAccum M wg.1 M.current_savings 0 wg.2
  let future_monthly_expenses :=
    M.monthly_contribution * (1 + M.inflation_rate) ^ years_to_retirement
  let years_lasted := calculate_withdrawal_years_enhanced
    { balance := bg.1, monthly_withdrawal := future_monthly_expenses,
      annual_rate := M.retirement_return, monthly_ss := M.monthly_ss,
      ss_start_age := M.ss_start_age,
      retirement_age := (M.target_retirement_age : ℚ),
      use_guardrails := M.use_guardrails,
      lower_bound := M.guardrail_lower, upper_bound := M.guardrail_upper }
  let monthly_withdrawal_amount :=
    match years_lasted with
    | .perpetual => bg.1 * M.withdrawal_rate / 12
    | .years _ => future_monthly_expenses
  (⟨bg.1, years_lasted, monthly_withdrawal_amount⟩, bg.2)

/-- The `for sim in range(num_sims)` loop of `run_monte_carlo_simulation`,
threading the global generator state from trial to trial. -/
def mcRun (seedStream : ℕ → ℕ → ℚ) (M : MCParams) :
    ℕ → ℕ → RNG → List TrialRecord
  | _, 0, _ => []
  | sim, n + 1, g =>
    let tg := mcTrialG seedStream M sim g
    tg.1 :: mcRun seedStream M (sim + 1) n tg.2

/-- Embedding of `run_monte_carlo_simulation` (app.py, lines 234-288);
`g` is the global numpy generator state at entry. -/
def run_monte_carlo_simulation (seedStream : ℕ → ℕ → ℚ) (M : MCParams)
    (num_sims : ℕ) (g : RNG) : List TrialRecord :=
  mcRun seedStream M 0 num_sims g

/-- The record of trial `sim` as a function of the parameters and the trial
index alone (the generator argument of `mcTrialG` is irrelevant because the
trial re-seeds first). -/
def mcTrialRecord (seedStream : ℕ → ℕ → ℚ) (M : MCParams)
    (sim : ℕ) : TrialRecord :=
  (mcTrialG seedStream M sim ⟨fun _ => 0, 0⟩).1

/-- The `while current_balance > 0` loop of `calculate_withdrawal_years`
(appv1.py, lines 127-143), with explicit fuel; the in-loop
`if months > 1200` return bounds the month counter by 1201, so the fuel
`1202` used below is never the deciding exit. -/
def w1loop (monthly_withdrawal monthly_rate monthly_ss : ℚ)
    (ss_start_age : Option ℚ) (retirement_age : ℚ) :
    ℕ → ℚ → ℕ → ℚ
  | 0, _, months => (months : ℚ) / 12
  | fuel + 1, current_balance, months =>
    if 0 < current_balance then
      let months' := months + 1
      let current_retirement_age := retirement_age + (months' : ℚ) / 12
      let total_monthly_income :=
        match ss_start_age with
        | none => 0
        | some a =>
          if a ≠ 0 ∧ a ≤ current_retirement_age then monthly_ss else 0
      let net_withdrawal := max 0 (monthly_withdrawal - total_monthly_income)
      let new_balance := current_balance * (1 + monthly_rate) - net_withdrawal
      if 1200 < months' then (months' : ℚ) / 12
      else
        w1loop monthly_withdrawal monthly_rate monthly_ss ss_start_age
          retirement_age fuel new_balance months'
    else (months : ℚ) / 12

/-- Embedding of `calculate_withdrawal_years` (appv1.py, lines 121-144). -/
def calculate_withdrawal_years (balance monthly_withdrawal annual_rate
    monthly_ss : ℚ) (ss_start_age : Option ℚ) (retirement_age : ℚ) : ℚ :=
  w1loop monthly_withdrawal (annual_rate / 12) monthly_ss ss_start_age
    retirement_age 1202 balance 0

/-- The v1 withdrawal-strategy selector (appv1.py, lines 167-172). -/
inductive StrategyV1 where
  | basic : StrategyV1
  | enhanced : StrategyV1
  | conservative : StrategyV1
deriving DecidableEq

/-- The strategy-to-rate mapping of the v1 Monte Carlo loop
(appv1.py, lines 167-172). -/
def strategy_withdrawal_rate_v1 : StrategyV1 → ℚ
  | .enhanced => 35 / 1000
  | .conservative => 3 / 100
  | .basic => 4 / 100

/-- The `params` dict fields read by `run_monte_carlo_simulation`
(appv1.py, lines 146-189). -/
structure MCParamsV1 where
  current_age : ℕ
  retirement_age : ℕ
  current_principal : ℚ
  monthly_contribution : ℚ
  monthly_ss : ℚ
  ss_start_age : Option ℚ
  working_apr : ℚ
  retirement_apr : ℚ
  inflation_rate : ℚ
  strategy : StrategyV1

/-- One v1 Monte Carlo trial record (appv1.py, lines 183-187). -/
structure TrialRecordV1 where
  balance_at_retirement : ℚ
  years_lasted : ℚ
  funds_exhausted_age : ℚ
deriving DecidableEq

/-- The per-trial accumulation loop of the v1 engine
(appv1.py, lines 161-164). -/
def accumV1 (M : MCParamsV1) : List ℚ → ℚ → ℚ
  | [], balance => balance
  | wr :: rest, balance =>
    accumV1 M rest (balance * (1 + wr) + M.monthly_contribution * 12)

/-- One v1 Monte Carlo trial (the body of the `for sim in range(num_sims)`
loop, appv1.py, lines 153-187).  Unlike the enhanced engine, the v1 trial
does NOT re-seed: it consumes the incoming global generator state `g` and
passes the advanced state to the next trial. -/
def mcTrialV1 (M : MCParamsV1) (g : RNG) : TrialRecordV1 × RNG :=
  let years_to_retirement := M.retirement_age - M.current_age
  let wg := normalDraws M.working_apr (16 / 100) years_to_retirement g
  let balance := accumV1 M wg.1 M.current_principal
  let withdrawal_rate := strategy_withdrawal_rate_v1 M.strategy
  let annual_withdrawal := balance * withdrawal_rate
  let monthly_withdrawal := annual_withdrawal / 12
  let years_lasted := calculate_withdrawal_years balance monthly_withdrawal
    M.retirement_apr M.monthly_ss M.ss_start_age (M.retirement_age : ℚ)
  (⟨balance, years_lasted, (M.retirement_age : ℚ) + years_lasted⟩, wg.2)

/-- The v1 trial loop, threading the single global generator state from
trial to trial. -/
def mcRunV1 (M : MCParamsV1) : ℕ → RNG → List TrialRecordV1
  | 0, _ => []
  | n + 1, g =>
    let tg := mcTrialV1 M g
    tg.1 :: mcRunV1 M n tg.2

/-- Embedding of `run_monte_carlo_simulation` (appv1.py, lines 146-189):
`np.random.seed(42)` runs ONCE at the start of the run (line 149), so every
trial reads the continuation of the single seed-42 stream; the incoming
global state `_g` is discarded by that one seeding. -/
def run_monte_carlo_simulation_v1 (seedStream : ℕ → ℕ → ℚ)
    (M : MCParamsV1) (num_sims : ℕ) (_g : RNG) : List TrialRecordV1 :=
  mcRunV1 M num_sims ⟨seedStream 42, 0⟩

/-- The spec's implied withdrawal rate (claim C1's words):
`annual_withdrawal / balance`, taken to be `upper_bound` when
`balance ≤ 0`. -/
def spec_implied_rate (P : WParams) (balance annual : ℚ) : ℚ :=
  if balance ≤ 0 then P.upper_bound else annual / balance

/-- The guardrail adjustment as described by the spec (claim C1's words):
shrink by 5% with floor at `lower_bound` when the implied rate is above
`upper_bound`; grow by 5% with cap at `upper_bound` when the implied rate
is below `lower_bound` and the rate is below `upper_bound`; otherwise keep
rate and annual withdrawal unchanged. -/
def spec_guardrail_adjust (P : WParams) (balance rate annual : ℚ) : ℚ × ℚ :=
  let implied := spec_implied_rate P balance annual
  if P.upper_bound < implied then
    let r := max P.lower_bound (rate * (95 / 100))
    (r, balance * r)
  else if implied < P.lower_bound ∧ rate < P.upper_bound then
    let r := min P.upper_bound (rate * (105 / 100))
    (r, balance * r)
  else (rate, annual)

/-! ## Theorems about the allocation scheduler -/

/-- C4: the allocation scheduler returns `(initial_stock, 1 − initial_stock)`
when the tent is disabled or `age < tent_start_age`; `(1 − final_bond,
final_bond)` when `age ≥ retirement_age`; otherwise the linear interpolation
`stock = initial_stock − progress × (initial_stock − (1 − final_bond))` with
`progress = (age − tent_start_age) / (retirement_age − tent_start_age)`;
and the two returned fractions always sum to 1. -/
theorem c4_allocation_cases (tent : Bool) (age sa ra is fb : ℚ) :
    ((tent = false ∨ age < sa) →
      calculate_bond_tent_allocation tent age sa ra is fb = (is, 1 - is)) ∧
    (tent = true → ¬ age < sa → ra ≤ age →
      calculate_bond_tent_allocation tent age sa ra is fb = (1 - fb, fb)) ∧
    (tent = true → ¬ age < sa → age < ra →
      calculate_bond_tent_allocation tent age sa ra is fb =
        (is - ((age - sa) / (ra - sa)) * (is - (1 - fb)),
         1 - (is - ((age - sa) / (ra - sa)) * (is - (1 - fb))))) ∧
    (calculate_bond_tent_allocation tent age sa ra is fb).1 +
      (calculate_bond_tent_allocation tent age sa ra is fb).2 = 1 := by
  refine ⟨?_, ?_, ?_, ?_⟩
  · intro h
    simp only [calculate_bond_tent_allocation, if_pos h]
  · intro ht hge hra
    have h1 : ¬ (tent = false ∨ age < sa) := by simp [ht, hge]
    simp only [calculate_bond_tent_allocation, if_neg h1, if_pos hra]
  · intro ht hge hra
    have h1 : ¬ (tent = false ∨ age < sa) := by simp [ht, hge]
    have h2 : ¬ ra ≤ age := not_le.mpr hra
    simp only [calculate_bond_tent_allocation, if_neg h1, if_neg h2,
      Prod.mk.injEq]
    constructor <;> ring
  · by_cases h1 : tent = false ∨ age < sa
    · simp only [calculate_bond_tent_allocation, if_pos h1]
      ring
    · by_cases h2 : ra ≤ age
      · simp only [calculate_bond_tent_allocation, if_neg h1, if_pos h2]
        ring
      · simp only [calculate_bond_tent_allocation, if_neg h1, if_neg h2]
        ring

/-- Witness for C4: the interpolation branch evaluated at a concrete
mid-tent age. -/
theorem c4_allocation_cases_witness :
    calculate_bond_tent_allocation true 55 50 62 (9/10) (1/2) =
      ((9 : ℚ)/10 - ((55 - 50) / (62 - 50)) * ((9 : ℚ)/10 - (1 - 1/2)),
       1 - ((9 : ℚ)/10 - ((55 - 50) / (62 - 50)) * ((9 : ℚ)/10 - (1 - 1/2)))) :=
  (c4_allocation_cases true 55 50 62 (9/10) (1/2)).2.2.1 rfl
    (by norm_num) (by norm_num)

/-- C7 counterexample: two invocations with equal values of the five
declared arguments but different values of the enclosing `use_bond_tent`
flag return different allocations, so the scheduler is not a pure function
of the five arguments alone. -/
theorem c7_counterexample :
    calculate_bond_tent_allocation true 55 50 62 (9/10) (1/2) ≠
      calculate_bond_tent_allocation false 55 50 62 (9/10) (1/2) := by
  norm_num [calculate_bond_tent_allocation, Prod.ext_iff]

/-- C7 (amended): the scheduler is a pure function of its five arguments
together with the enclosing `use_bond_tent` flag; below the tent start age
the flag is irrelevant, but there are inputs on which the flag changes the
result. -/
theorem c7_flag_dependence :
    (∀ (b1 b2 : Bool) (age sa ra is fb : ℚ), age < sa →
      calculate_bond_tent_allocation b1 age sa ra is fb =
        calculate_bond_tent_allocation b2 age sa ra is fb) ∧
    (∃ age sa ra is fb : ℚ,
      calculate_bond_tent_allocation true age sa ra is fb ≠
        calculate_bond_tent_allocation false age sa ra is fb) := by
  constructor
  · intro b1 b2 age sa ra is fb h
    simp [calculate_bond_tent_allocation, h]
  · refine ⟨55, 50, 62, 9/10, 1/2, ?_⟩
    norm_num [calculate_bond_tent_allocation, Prod.ext_iff]

/-- Witness for C7 (amended): flag-irrelevance below the tent start age at
a concrete input. -/
theorem c7_flag_dependence_witness :
    calculate_bond_tent_allocation true 40 50 62 (9/10) (1/2) =
      calculate_bond_tent_allocation false 40 50 62 (9/10) (1/2) :=
  c7_flag_dependence.1 true false 40 50 62 (9/10) (1/2) (by norm_num)

/-! ## Theorems about the accumulation projector -/

/-- The enhanced accumulation loop computes exactly the spec's yearly
recurrence. -/
theorem crb_loop_eq_spec (E : AccumEnv) (mc r : ℚ) (t : Bool) :
    ∀ (n : ℕ) (b : ℚ) (y : ℕ),
      crb_loop E mc r t n b y = spec_accum_recurrence E mc r t b y n := by
  intro n
  induction n with
  | zero => intro b y; rfl
  | succ n ih =>
    intro b y
    rw [crb_loop, spec_accum_recurrence, ih, mul_comm mc 12]

/-- With the tent disabled, the accumulation loop is flat-rate compounding
with yearly additions. -/
theorem crb_loop_flat (E : AccumEnv) (mc r : ℚ) :
    ∀ (n : ℕ) (b : ℚ) (y : ℕ),
      crb_loop E mc r false n b y = spec_flat_compound r (mc * 12) b n := by
  intro n
  induction n with
  | zero => intro b y; rfl
  | succ n ih =>
    intro b y
    rw [crb_loop, spec_flat_compound, ih]
    rfl

/-- C3 (amended): the enhanced implementation's accumulation projection
equals iterating the spec recurrence `balance ← balance × (1 +
blended_return) + 12 × monthly_contribution` once per elapsed year, for
every year count; in particular, with the tent disabled, projecting 100000
over 32 years at rate 0.105 with monthly contribution 2000 equals
compounding at 10.5% annually with end-of-year additions of 24000. -/
theorem c3_accum_recurrence :
    (∀ (E : AccumEnv) (p mc : ℚ) (years : ℕ) (r : ℚ) (t : Bool),
      calculate_retirement_balance E p mc years r t =
        spec_accum_recurrence E mc r t p 0 years) ∧
    (∀ E : AccumEnv,
      calculate_retirement_balance E 100000 2000 32 (105/1000) false =
        spec_flat_compound (105/1000) 24000 100000 32) := by
  constructor
  · intro E p mc years r t
    exact crb_loop_eq_spec E mc r t years p 0
  · intro E
    have h := crb_loop_flat E 2000 (105/1000) 32 100000 0
    have h24 : (2000 : ℚ) * 12 = 24000 := by norm_num
    rw [calculate_retirement_balance, h, h24]

/-- C3 counterexample: the v1 implementation (`appv1.py`) does not satisfy
the claimed recurrence: at principal 0, monthly contribution 1, one year,
rate 0.105, the recurrence yields 12 but the v1 closed form compounds the
contributions monthly and yields a different value. -/
theorem c3_counterexample_v1 :
    calculate_retirement_balance_v1 0 1 1 (105/1000) ≠
      spec_flat_compound (105/1000) (12 * 1) 0 1 := by
  norm_num [calculate_retirement_balance_v1, spec_flat_compound]

/-! ## Basic lemmas about the withdrawal simulator's monthly step -/

/-- Each executed month increments the month counter by one. -/
theorem monthStep_months (P : WParams) (s : WState) :
    (monthStep P s).months = s.months + 1 := rfl

/-- The month counter after `n` executed months. -/
theorem months_iterate (P : WParams) (s : WState) :
    ∀ n : ℕ, ((monthStep P)^[n] s).months = s.months + n := by
  intro n
  induction n with
  | zero => rw [Function.iterate_zero_apply, Nat.add_zero]
  | succ n ih =>
    rw [Function.iterate_succ_apply', monthStep_months, ih, Nat.add_assoc]

/-- The withdrawal rate after a step is the first component of the
guardrail block applied to the post-growth balance. -/
theorem monthStep_rate (P : WParams) (s : WState) :
    (monthStep P s).current_withdrawal_rate =
      (guardrail_update P (s.months + 1)
        (s.current_balance * (1 + P.annual_rate / 12))
        s.current_withdrawal_rate s.annual_withdrawal).1 := rfl

/-- The annual withdrawal after a step is the second component of the
guardrail block applied to the post-growth balance. -/
theorem monthStep_annual (P : WParams) (s : WState) :
    (monthStep P s).annual_withdrawal =
      (guardrail_update P (s.months + 1)
        (s.current_balance * (1 + P.annual_rate / 12))
        s.current_withdrawal_rate s.annual_withdrawal).2 := rfl

/-- The consecutive-growth counter after a step: incremented when the new
balance exceeds 80% of the original balance, reset to zero otherwise. -/
theorem monthStep_consec (P : WParams) (s : WState) :
    (monthStep P s).consecutive_growth_months =
      if P.balance * (8 / 10) < (monthStep P s).current_balance then
        s.consecutive_growth_months + 1
      else 0 := rfl

/-- With guardrails disabled the guardrail block is the identity on the
rate/annual pair. -/
theorem guardrail_update_off (P : WParams) (h : P.use_guardrails = false)
    (m : ℕ) (b r a : ℚ) : guardrail_update P m b r a = (r, a) := by
  unfold guardrail_update
  rw [if_neg]
  intro hc
  rw [h] at hc
  exact Bool.false_ne_true hc.1

/-- With zero Social Security income the monthly offset is zero. -/
theorem ss_income_zero (P : WParams) (h : P.monthly_ss = 0) (x : ℚ) :
    ss_income P x = 0 := by
  unfold ss_income
  cases P.ss_start_age with
  | none => rfl
  | some a => rw [h]; simp

/-- At an adjustment month the source's guardrail block agrees exactly with
the spec's description of the adjustment. -/
theorem guardrail_update_eq_spec (P : WParams) (m : ℕ) (b r a : ℚ)
    (hm : P.use_guardrails = true ∧ m % 12 = 0 ∧ 0 < m) :
    guardrail_update P m b r a = spec_guardrail_adjust P b r a := by
  unfold guardrail_update spec_guardrail_adjust spec_implied_rate
  rw [if_pos hm]
  by_cases hb : 0 < b
  · simp only [if_pos hb, if_neg (not_le.mpr hb)]
  · simp only [if_neg hb, if_pos (not_lt.mp hb)]

/-- C1: with guardrails enabled, the withdrawal rate and annual withdrawal
are adjusted exactly at months that are multiples of 12, and there they
follow the spec's adjustment (implied rate compared against the bounds,
0.95/1.05 multipliers with floor/cap, annual withdrawal recomputed as
balance × rate); at every other month both are unchanged. -/
theorem c1_guardrail_adjustment (P : WParams) (s : WState) :
    (P.use_guardrails = true ∧ (s.months + 1) % 12 = 0 →
      ((monthStep P s).current_withdrawal_rate,
        (monthStep P s).annual_withdrawal) =
        spec_guardrail_adjust P
          (s.current_balance * (1 + P.annual_rate / 12))
          s.current_withdrawal_rate s.annual_withdrawal) ∧
    (¬ (P.use_guardrails = true ∧ (s.months + 1) % 12 = 0) →
      (monthStep P s).current_withdrawal_rate = s.current_withdrawal_rate ∧
      (monthStep P s).annual_withdrawal = s.annual_withdrawal) := by
  constructor
  · intro h
    have h3 : P.use_guardrails = true ∧ (s.months + 1) % 12 = 0 ∧
        0 < s.months + 1 := ⟨h.1, h.2, Nat.succ_pos _⟩
    have he := guardrail_update_eq_spec P (s.months + 1)
      (s.current_balance * (1 + P.annual_rate / 12))
      s.current_withdrawal_rate s.annual_withdrawal h3
    rw [monthStep_rate, monthStep_annual, he]
  · intro h
    have he : guardrail_update P (s.months + 1)
        (s.current_balance * (1 + P.annual_rate / 12))
        s.current_withdrawal_rate s.annual_withdrawal =
        (s.current_withdrawal_rate, s.annual_withdrawal) := by
      unfold guardrail_update
      rw [if_neg]
      intro hc
      exact h ⟨hc.1, hc.2.1⟩
    constructor
    · rw [monthStep_rate, he]
    · rw [monthStep_annual, he]

/-- Witness for C1: at month 12 with guardrails on, the step applies the
spec adjustment to a concrete state whose implied rate exceeds the upper
bound. -/
theorem c1_guardrail_adjustment_witness :
    ((monthStep ⟨100, 0, 0, 0, none, 62, true, 1/40, 1/20⟩
        ⟨100, 11, 7/200, 10, 0⟩).current_withdrawal_rate,
      (monthStep ⟨100, 0, 0, 0, none, 62, true, 1/40, 1/20⟩
        ⟨100, 11, 7/200, 10, 0⟩).annual_withdrawal) =
      spec_guardrail_adjust ⟨100, 0, 0, 0, none, 62, true, 1/40, 1/20⟩
        (100 * (1 + 0 / 12)) (7/200) 10 :=
  (c1_guardrail_adjustment ⟨100, 0, 0, 0, none, 62, true, 1/40, 1/20⟩
    ⟨100, 11, 7/200, 10, 0⟩).1 ⟨rfl, rfl⟩

/-! ## The perpetual-fund detection and loop-exit characterizations -/

/-- The withdrawal loop returns the perpetual sentinel exactly when some
prefix of the run keeps the loop guard true and the consecutive-growth
counter reaches 420 on the following step. -/
theorem wloop_perpetual_iff (P : WParams) :
    ∀ (fuel : ℕ) (s : WState),
      wloop P fuel s = .perpetual ↔
      ∃ k, k < fuel ∧
        (∀ j ≤ k, 0 < ((monthStep P)^[j] s).current_balance ∧
          ((monthStep P)^[j] s).months < 1200) ∧
        420 ≤ ((monthStep P)^[k + 1] s).consecutive_growth_months := by
  intro fuel
  induction fuel with
  | zero =>
    intro s
    constructor
    · intro h; exact absurd h (by simp [wloop])
    · rintro ⟨k, hk, -, -⟩; exact absurd hk (Nat.not_lt_zero k)
  | succ fuel ih =>
    intro s
    rw [wloop]
    by_cases hg : 0 < s.current_balance ∧ s.months < 1200
    · rw [if_pos hg]
      by_cases hc : 420 ≤ (monthStep P s).consecutive_growth_months
      · rw [if_pos hc]
        constructor
        · intro _
          refine ⟨0, Nat.succ_pos _, ?_, ?_⟩
          · intro j hj
            have hj0 : j = 0 := Nat.le_zero.mp hj
            rw [hj0, Function.iterate_zero_apply]
            exact hg
          · rw [Nat.zero_add, Function.iterate_one]
            exact hc
        · intro _; rfl
      · rw [if_neg hc, ih (monthStep P s)]
        constructor
        · rintro ⟨k, hk, hguard, hcons⟩
          refine ⟨k + 1, by omega, ?_, ?_⟩
          · intro j hj
            cases j with
            | zero =>
              rw [Function.iterate_zero_apply]
              exact hg
            | succ j' =>
              rw [Function.iterate_succ_apply]
              exact hguard j' (by omega)
          · rw [Function.iterate_succ_apply]
            exact hcons
        · rintro ⟨k, hk, hguard, hcons⟩
          cases k with
          | zero =>
            exfalso
            apply hc
            have := hcons
            rwa [Nat.zero_add, Function.iterate_one] at this
          | succ k' =>
            refine ⟨k', by omega, ?_, ?_⟩
            · intro j hj
              have := hguard (j + 1) (by omega)
              rwa [Function.iterate_succ_apply] at this
            · have := hcons
              rwa [Function.iterate_succ_apply] at this
    · rw [if_neg hg]
      constructor
      · intro h; exact absurd h (by simp)
      · rintro ⟨k, -, hguard, -⟩
        have h0 := hguard 0 (Nat.zero_le _)
        rw [Function.iterate_zero_apply] at h0
        exact absurd h0 hg

/-- Value of the consecutive-growth counter: starting from a zeroed
counter, after `n` executed months the counter is at least `m` exactly when
the last `m` post-step balances all exceeded 80% of the original balance. -/
theorem consec_count (P : WParams) (s : WState)
    (h0 : s.consecutive_growth_months = 0) :
    ∀ (n m : ℕ), m ≤ ((monthStep P)^[n] s).consecutive_growth_months ↔
      m ≤ n ∧ ∀ i < m,
        P.balance * (8 / 10) <
          ((monthStep P)^[n - i] s).current_balance := by
  intro n
  induction n with
  | zero =>
    intro m
    rw [Function.iterate_zero_apply, h0]
    constructor
    · intro hm
      exact ⟨hm, fun i hi => absurd hi (by omega)⟩
    · exact fun h => h.1
  | succ n ih =>
    intro m
    rw [Function.iterate_succ_apply', monthStep_consec]
    by_cases hq : P.balance * (8 / 10) <
        (monthStep P ((monthStep P)^[n] s)).current_balance
    · rw [if_pos hq]
      cases m with
      | zero =>
        constructor
        · intro _
          exact ⟨Nat.zero_le _, fun i hi => absurd hi (Nat.not_lt_zero i)⟩
        · intro _
          exact Nat.zero_le _
      | succ m' =>
        rw [Nat.succ_le_succ_iff, ih m']
        constructor
        · rintro ⟨hmn, hall⟩
          refine ⟨by omega, ?_⟩
          intro i hi
          cases i with
          | zero =>
            rw [Nat.sub_zero, Function.iterate_succ_apply']
            exact hq
          | succ i' =>
            have := hall i' (by omega)
            rwa [show n + 1 - (i' + 1) = n - i' from by omega]
        · rintro ⟨hmn, hall⟩
          refine ⟨by omega, ?_⟩
          intro i hi
          have := hall (i + 1) (by omega)
          rwa [show n + 1 - (i + 1) = n - i from by omega] at this
    · rw [if_neg hq]
      cases m with
      | zero =>
        constructor
        · intro _
          exact ⟨Nat.zero_le _, fun i hi => absurd hi (Nat.not_lt_zero i)⟩
        · intro _
          exact Nat.zero_le _
      | succ m' =>
        constructor
        · intro hm; exact absurd hm (by omega)
        · rintro ⟨hmn, hall⟩
          exfalso
          have := hall 0 (Nat.succ_pos _)
          rw [Nat.sub_zero, Function.iterate_succ_apply'] at this
          exact hq this

/-- Loop-exit characterization: if the guard holds and the counter stays
under 420 for the first `n` months and the guard fails at month `n`, the
loop returns `months / 12` evaluated at month `n`. -/
theorem wloop_exit (P : WParams) :
    ∀ (n : ℕ) (s : WState) (fuel : ℕ), n ≤ fuel →
      (∀ j < n, (0 < ((monthStep P)^[j] s).current_balance ∧
          ((monthStep P)^[j] s).months < 1200) ∧
        ((monthStep P)^[j + 1] s).consecutive_growth_months < 420) →
      ¬ (0 < ((monthStep P)^[n] s).current_balance ∧
          ((monthStep P)^[n] s).months < 1200) →
      wloop P fuel s =
        .years ((((monthStep P)^[n] s).months : ℚ) / 12) := by
  intro n
  induction n with
  | zero =>
    intro s fuel _ _ hexit
    rw [Function.iterate_zero_apply] at hexit ⊢
    cases fuel with
    | zero => rfl
    | succ f => rw [wloop, if_neg hexit]
  | succ n ih =>
    intro s fuel hfuel hguard hexit
    obtain ⟨f, rfl⟩ : ∃ f, fuel = f + 1 := ⟨fuel - 1, by omega⟩
    have hg0 := hguard 0 (Nat.succ_pos _)
    rw [Function.iterate_zero_apply] at hg0
    rw [wloop, if_pos hg0.1, if_neg ?hc]
    case hc =>
      have := hg0.2
      rw [Nat.zero_add, Function.iterate_one] at this
      omega
    rw [Function.iterate_succ_apply] at hexit ⊢
    exact ih (monthStep P s) f (by omega)
      (fun j hj => by
        have := hguard (j + 1) (by omega)
        rwa [Function.iterate_succ_apply, Function.iterate_succ_apply]
          at this)
      hexit

/-! ## Closed form for the straight-line depletion scenario -/

/-- With guardrails off, zero Social Security and zero return, a step
subtracts the fixed net withdrawal and updates the counter. -/
theorem monthStep_no_adjust (P : WParams) (hg : P.use_guardrails = false)
    (hss : P.monthly_ss = 0) (hr : P.annual_rate = 0) (s : WState) :
    monthStep P s =
      ⟨s.current_balance - max 0 (s.annual_withdrawal / 12),
        s.months + 1, s.current_withdrawal_rate, s.annual_withdrawal,
        if P.balance * (8 / 10) <
            s.current_balance - max 0 (s.annual_withdrawal / 12) then
          s.consecutive_growth_months + 1
        else 0⟩ := by
  simp only [monthStep]
  rw [guardrail_update_off P hg, ss_income_zero P hss, hr]
  norm_num

/-- Closed form of the simulator state in the straight-line scenario
(guardrails off, zero return, zero Social Security, constant monthly
withdrawal `mw ≥ 0`): after `j` months the balance is `B − j·mw`, rate and
annual withdrawal are unchanged, and the counter counts the months since
the balance last fell to 80% of the original or below. -/
theorem linear_state (B mw ra lb ub : ℚ) (ss : Option ℚ) (hmw : 0 ≤ mw) :
    ∀ j : ℕ,
      stateAt ⟨B, mw, 0, 0, ss, ra, false, lb, ub⟩ j =
        ⟨B - j * mw, j, mw * 12 / B, mw * 12,
          if (j : ℚ) * mw < B * (1 / 5) then j else 0⟩ := by
  intro j
  induction j with
  | zero =>
    show initState _ = _
    unfold initState
    norm_num
  | succ j ih =>
    unfold stateAt at ih ⊢
    rw [Function.iterate_succ_apply', ih, monthStep_no_adjust _ rfl rfl rfl]
    have hmax : max 0 (mw * 12 / 12) = mw := by
      rw [mul_div_assoc]
      norm_num [max_eq_right hmw]
    rw [hmax, WState.mk.injEq]
    refine ⟨by push_cast; ring, rfl, rfl, rfl, ?_⟩
    by_cases hc : ((j : ℚ) + 1) * mw < B * (1 / 5)
    · have hc1 : B * (8 / 10) < B - (j : ℚ) * mw - mw := by
        have hexp : ((j : ℚ) + 1) * mw = (j : ℚ) * mw + mw := by ring
        rw [hexp] at hc
        linarith
      have hc2 : (j : ℚ) * mw < B * (1 / 5) := by
        have hexp : ((j : ℚ) + 1) * mw = (j : ℚ) * mw + mw := by ring
        rw [hexp] at hc
        linarith
      have hc' : ((j + 1 : ℕ) : ℚ) * mw < B * (1 / 5) := by push_cast; exact hc
      rw [if_pos hc1, if_pos hc2, if_pos hc']
    · have hc1 : ¬ (B * (8 / 10) < B - (j : ℚ) * mw - mw) := by
        intro h
        apply hc
        have hexp : ((j : ℚ) + 1) * mw = (j : ℚ) * mw + mw := by ring
        rw [hexp]
        linarith
      have hc' : ¬ ((j + 1 : ℕ) : ℚ) * mw < B * (1 / 5) := by push_cast; exact hc
      rw [if_neg hc1, if_neg hc']

/-- The month counter of the simulator run equals the number of executed
months. -/
theorem stateAt_months (P : WParams) (j : ℕ) : (stateAt P j).months = j := by
  rw [stateAt, months_iterate]
  exact Nat.zero_add j

/-- The consecutive-growth counter of the run, phrased on `stateAt`. -/
theorem consec_count_stateAt (P : WParams) (n m : ℕ) :
    m ≤ (stateAt P n).consecutive_growth_months ↔
      m ≤ n ∧ ∀ i < m,
        P.balance * (8 / 10) < (stateAt P (n - i)).current_balance := by
  simp only [stateAt]
  exact consec_count P (initState P) rfl n m

/-- If the guard holds and the counter stays under 420 for the first `n`
months and the guard fails at month `n ≤ 1200`, the simulator returns
`n / 12` years. -/
theorem simulate_exit (P : WParams) (n : ℕ)
    (hguard : ∀ j < n, 0 < (stateAt P j).current_balance ∧
      (stateAt P (j + 1)).consecutive_growth_months < 420)
    (hn : n ≤ 1200)
    (hfail : ¬ (0 < (stateAt P n).current_balance ∧ n < 1200)) :
    calculate_withdrawal_years_enhanced P = .years ((n : ℚ) / 12) := by
  have hm : ∀ j : ℕ, ((monthStep P)^[j] (initState P)).months = j :=
    fun j => stateAt_months P j
  have h := wloop_exit P n (initState P) 1201 (by omega)
    (fun j hj => ⟨⟨(hguard j hj).1, by rw [hm j]; omega⟩, (hguard j hj).2⟩)
    (by
      intro hcon
      rw [hm n] at hcon
      exact hfail hcon)
  rw [hm n] at h
  exact h

/-! ## Claims about the withdrawal simulator -/

/-- C2: the simulator returns the perpetual sentinel exactly when some run
prefix keeps the balance positive and the 420 most recent post-step
balances all exceed 80% of the original balance (equivalently: the
consecutive-growth counter, incremented when the month ends above the
threshold and reset to zero otherwise, reaches 420). -/
theorem c2_perpetual_iff (P : WParams) :
    calculate_withdrawal_years_enhanced P = .perpetual ↔
      ∃ k, k < 1200 ∧
        (∀ j ≤ k, 0 < (stateAt P j).current_balance) ∧
        420 ≤ k + 1 ∧
        ∀ i < 420,
          P.balance * (8 / 10) < (stateAt P (k + 1 - i)).current_balance := by
  unfold calculate_withdrawal_years_enhanced
  rw [wloop_perpetual_iff P 1201 (initState P)]
  constructor
  · rintro ⟨k, _, hguard, hcons⟩
    have hbal : ∀ j ≤ k, 0 < (stateAt P j).current_balance :=
      fun j hj => (hguard j hj).1
    have hk1200 : k < 1200 := by
      have h := (hguard k le_rfl).2
      rwa [months_iterate, show (initState P).months = 0 from rfl,
        Nat.zero_add] at h
    have hcc := (consec_count_stateAt P (k + 1) 420).mp hcons
    exact ⟨k, hk1200, hbal, hcc.1, hcc.2⟩
  · rintro ⟨k, hk, hpos, hk420, hqual⟩
    refine ⟨k, by omega, ?_, ?_⟩
    · intro j hj
      refine ⟨hpos j hj, ?_⟩
      rw [months_iterate, show (initState P).months = 0 from rfl]
      omega
    · exact (consec_count_stateAt P (k + 1) 420).mpr ⟨hk420, hqual⟩

/-- Witness for C2: with zero withdrawals the balance never leaves 100% of
the original, and the simulator reports the perpetual sentinel. -/
theorem c2_perpetual_iff_witness :
    calculate_withdrawal_years_enhanced
      ⟨100, 0, 0, 0, none, 62, false, 1/40, 1/20⟩ = .perpetual := by
  rw [c2_perpetual_iff]
  refine ⟨419, by omega, ?_, by omega, ?_⟩
  · intro j hj
    rw [linear_state 100 0 62 (1/40) (1/20) none le_rfl j]
    show (0 : ℚ) < 100 - (j : ℚ) * 0
    norm_num
  · intro i hi
    rw [linear_state 100 0 62 (1/40) (1/20) none le_rfl (419 + 1 - i)]
    show (100 : ℚ) * (8 / 10) < 100 - ((419 + 1 - i : ℕ) : ℚ) * 0
    norm_num

/-- C8: in the straight-line scenario (zero return, zero Social Security,
guardrails off, monthly withdrawal `B·r/12`), the simulator depletes the
balance linearly and returns `m/12` years for the integer month count `m`
with `12/r ≤ m < 12/r + 1`, whenever the depletion takes at most 1200
months. -/
theorem c8_straight_line (B r ra lb ub : ℚ) (ss : Option ℚ)
    (hB : 0 < B) (hr : 0 < r) (hceil : (12 : ℚ) / r ≤ 1200) :
    ∃ m : ℕ,
      calculate_withdrawal_years_enhanced
        ⟨B, B * r / 12, 0, 0, ss, ra, false, lb, ub⟩ =
        .years ((m : ℚ) / 12) ∧
      (12 : ℚ) / r ≤ (m : ℚ) ∧ (m : ℚ) < 12 / r + 1 := by
  have hmw : 0 < B * r / 12 := by positivity
  have hx : 0 < (12 : ℚ) / r := by positivity
  have hM0 : 0 ≤ Int.ceil ((12 : ℚ) / r) := (Int.ceil_pos.mpr hx).le
  have hmz : ((Int.ceil ((12 : ℚ) / r)).toNat : ℤ) = Int.ceil ((12 : ℚ) / r) :=
    Int.toNat_of_nonneg hM0
  have hmcast : (((Int.ceil ((12 : ℚ) / r)).toNat : ℕ) : ℚ) =
      ((Int.ceil ((12 : ℚ) / r) : ℤ) : ℚ) := by exact_mod_cast hmz
  have hxle : (12 : ℚ) / r ≤ (((Int.ceil ((12 : ℚ) / r)).toNat : ℕ) : ℚ) := by
    rw [hmcast]; exact Int.le_ceil _
  have hlt : (((Int.ceil ((12 : ℚ) / r)).toNat : ℕ) : ℚ) < 12 / r + 1 := by
    rw [hmcast]; exact Int.ceil_lt_add_one _
  have hm1200 : (Int.ceil ((12 : ℚ) / r)).toNat ≤ 1200 := by
    have hle : Int.ceil ((12 : ℚ) / r) ≤ 1200 :=
      Int.ceil_le.mpr (by exact_mod_cast hceil)
    omega
  have hBx : 12 / r * (B * r / 12) = B := by
    field_simp
    ring
  have hls := linear_state B (B * r / 12) ra lb ub ss hmw.le
  refine ⟨(Int.ceil ((12 : ℚ) / r)).toNat, ?_, hxle, hlt⟩
  refine simulate_exit _ _ ?_ hm1200 ?_
  · intro j hj
    constructor
    · rw [hls j]
      show (0 : ℚ) < B - (j : ℚ) * (B * r / 12)
      have hjx : (j : ℚ) < 12 / r := by
        have h1 : (j : ℚ) + 1 ≤ (((Int.ceil ((12 : ℚ) / r)).toNat : ℕ) : ℚ) := by
          exact_mod_cast hj
        linarith
      have h2 := mul_lt_mul_of_pos_right hjx hmw
      rw [hBx] at h2
      linarith
    · rw [hls (j + 1)]
      show (if ((j + 1 : ℕ) : ℚ) * (B * r / 12) < B * (1 / 5) then j + 1
        else 0) < 420
      by_cases hcond : ((j + 1 : ℕ) : ℚ) * (B * r / 12) < B * (1 / 5)
      · rw [if_pos hcond]
        have hBx5 : B * (1 / 5) = 12 / r / 5 * (B * r / 12) := by
          field_simp
          ring
        rw [hBx5] at hcond
        have hj5 : ((j + 1 : ℕ) : ℚ) < 12 / r / 5 :=
          lt_of_mul_lt_mul_right hcond hmw.le
        have h240 : ((j + 1 : ℕ) : ℚ) < 240 := by linarith
        have h240n : j + 1 < 240 := by exact_mod_cast h240
        omega
      · rw [if_neg hcond]
        omega
  · rintro ⟨h1, -⟩
    rw [hls ((Int.ceil ((12 : ℚ) / r)).toNat)] at h1
    have h1' : (0 : ℚ) <
        B - (((Int.ceil ((12 : ℚ) / r)).toNat : ℕ) : ℚ) * (B * r / 12) := h1
    have h2 := mul_le_mul_of_nonneg_right hxle hmw.le
    rw [hBx] at h2
    linarith

/-- Witness for C8: balance 100 at withdrawal rate 10% depletes in 120
months, i.e. 10 years. -/
theorem c8_straight_line_witness :
    ∃ m : ℕ,
      calculate_withdrawal_years_enhanced
        ⟨100, 100 * (1/10) / 12, 0, 0, none, 62, false, 1/40, 1/20⟩ =
        .years ((m : ℚ) / 12) ∧
      (12 : ℚ) / (1/10) ≤ (m : ℚ) ∧ (m : ℚ) < 12 / (1/10) + 1 :=
  c8_straight_line 100 (1/10) 62 (1/40) (1/20) none (by norm_num)
    (by norm_num) (by norm_num)

/-- C9: the simulator terminates on every input with either the perpetual
sentinel or a duration `m/12` for some month count `m ≤ 1200`; and when the
balance stays positive and the counter stays under 420 through all 1200
months, it returns exactly 100 years. -/
theorem c9_termination_and_ceiling (P : WParams) :
    (calculate_withdrawal_years_enhanced P = .perpetual ∨
      ∃ m : ℕ, m ≤ 1200 ∧
        calculate_withdrawal_years_enhanced P = .years ((m : ℚ) / 12)) ∧
    ((∀ j < 1200, 0 < (stateAt P j).current_balance) →
      (∀ j < 1200, (stateAt P (j + 1)).consecutive_growth_months < 420) →
      calculate_withdrawal_years_enhanced P = .years 100) := by
  constructor
  · have key : ∀ N : ℕ, N ≤ 1200 →
        ¬ (0 < (stateAt P N).current_balance ∧ N < 1200) →
        (∀ j < N, 0 < (stateAt P j).current_balance ∧ j < 1200) →
        (calculate_withdrawal_years_enhanced P = .perpetual ∨
          ∃ m : ℕ, m ≤ 1200 ∧
            calculate_withdrawal_years_enhanced P = .years ((m : ℚ) / 12)) := by
      intro N hNle hQN hguardN
      by_cases hcons : ∃ k < N,
          420 ≤ (stateAt P (k + 1)).consecutive_growth_months
      · left
        obtain ⟨k, hkN, hk420⟩ := hcons
        unfold calculate_withdrawal_years_enhanced
        rw [wloop_perpetual_iff P 1201 (initState P)]
        refine ⟨k, by omega, ?_, hk420⟩
        intro j hj
        have hg := hguardN j (by omega)
        refine ⟨hg.1, ?_⟩
        rw [months_iterate, show (initState P).months = 0 from rfl]
        omega
      · right
        push_neg at hcons
        exact ⟨N, hNle,
          simulate_exit P N
            (fun j hj => ⟨(hguardN j hj).1, hcons j hj⟩) hNle hQN⟩
    have hQex : ∃ n, ¬ (0 < (stateAt P n).current_balance ∧ n < 1200) :=
      ⟨1200, by rintro ⟨-, h⟩; omega⟩
    exact key (Nat.find hQex)
      (Nat.find_min' hQex (by rintro ⟨-, h⟩; omega))
      (Nat.find_spec hQex)
      (fun j hj => not_not.mp (Nat.find_min hQex hj))
  · intro hbal hcons
    have h := simulate_exit P 1200
      (fun j hj => ⟨hbal j hj, hcons j hj⟩) le_rfl
      (by rintro ⟨-, h⟩; omega)
    rw [h]
    norm_num

/-- Witness for C9: a slow straight-line drain that stays positive for all
1200 months but falls below the 80% threshold early, so the ceiling is hit
and 100 years is returned. -/
theorem c9_termination_and_ceiling_witness :
    calculate_withdrawal_years_enhanced
      ⟨100, 1/12, 0, 0, none, 62, false, 1/40, 1/20⟩ = .years 100 := by
  apply (c9_termination_and_ceiling _).2
  · intro j hj
    rw [linear_state 100 (1/12) 62 (1/40) (1/20) none (by norm_num) j]
    show (0 : ℚ) < 100 - (j : ℚ) * (1/12)
    have hq : (j : ℚ) < 1200 := by exact_mod_cast hj
    linarith
  · intro j hj
    rw [linear_state 100 (1/12) 62 (1/40) (1/20) none (by norm_num) (j + 1)]
    show (if ((j + 1 : ℕ) : ℚ) * (1/12) < 100 * (1 / 5) then j + 1
      else 0) < 420
    by_cases hc : ((j + 1 : ℕ) : ℚ) * (1/12) < 100 * (1 / 5)
    · rw [if_pos hc]
      have h240 : ((j + 1 : ℕ) : ℚ) < 240 := by linarith
      have h240n : j + 1 < 240 := by exact_mod_cast h240
      omega
    · rw [if_neg hc]
      omega

/-- C10: there is an input (balance 100, zero return, monthly withdrawal
1/25, guardrails off) on which the simulator returns the perpetual
sentinel although the balance strictly decreases every single month of the
run: it drains to 83.2% of the original over the 420 detection months. -/
theorem c10_perpetual_with_decreasing_balance :
    calculate_withdrawal_years_enhanced
      ⟨100, 1/25, 0, 0, none, 62, false, 1/40, 1/20⟩ = .perpetual ∧
    ∀ j < 420,
      (stateAt ⟨100, 1/25, 0, 0, none, 62, false, 1/40, 1/20⟩
        (j + 1)).current_balance <
      (stateAt ⟨100, 1/25, 0, 0, none, 62, false, 1/40, 1/20⟩
        j).current_balance := by
  have hls := linear_state 100 (1/25) 62 (1/40) (1/20) none (by norm_num)
  constructor
  · unfold calculate_withdrawal_years_enhanced
    rw [wloop_perpetual_iff _ 1201 (initState _)]
    refine ⟨419, by omega, ?_, ?_⟩
    · intro j hj
      constructor
      · show 0 < (stateAt ⟨100, 1/25, 0, 0, none, 62, false, 1/40, 1/20⟩
          j).current_balance
        rw [hls j]
        show (0 : ℚ) < 100 - (j : ℚ) * (1/25)
        have hq : (j : ℚ) ≤ 419 := by exact_mod_cast hj
        linarith
      · rw [months_iterate, show (initState
          (⟨100, 1/25, 0, 0, none, 62, false, 1/40, 1/20⟩ :
            WParams)).months = 0 from rfl]
        omega
    · show 420 ≤ (stateAt ⟨100, 1/25, 0, 0, none, 62, false, 1/40, 1/20⟩
        420).consecutive_growth_months
      rw [hls 420]
      show 420 ≤ (if ((420 : ℕ) : ℚ) * (1/25) < 100 * (1 / 5) then 420
        else 0)
      rw [if_pos (by norm_num)]
  · intro j hj
    rw [hls (j + 1), hls j]
    show (100 : ℚ) - ((j + 1 : ℕ) : ℚ) * (1/25) < 100 - (j : ℚ) * (1/25)
    have hexp : ((j + 1 : ℕ) : ℚ) * (1/25) = (j : ℚ) * (1/25) + 1/25 := by
      push_cast
      ring
    rw [hexp]
    linarith

/-- Witness for C10: the first month's withdrawal strictly lowers the
balance. -/
theorem c10_witness :
    (stateAt ⟨100, 1/25, 0, 0, none, 62, false, 1/40, 1/20⟩
      1).current_balance <
    (stateAt ⟨100, 1/25, 0, 0, none, 62, false, 1/40, 1/20⟩
      0).current_balance :=
  c10_perpetual_with_decreasing_balance.2 0 (by omega)

/-! ## Monte Carlo determinism -/

/-- C5 counterexample: the v1 engine (appv1.py) does not re-seed per trial
with the trial index: it seeds once with 42, so the record at position 1 is
read from the continuation of the seed-42 stream left by trial 0.  Two
generator models that agree on the trial-index-1 stream everywhere (both
give only zeros for seed 1) but differ in the seed-42 stream at position 1
produce different records at position 1, so the record at position 1 is
not determined by the parameters and the index-1 stream as the claim
requires. -/
theorem c5_counterexample_v1 :
    (∀ n : ℕ,
      (fun _ _ => (0 : ℚ)) 1 n =
        (fun s m => if s = 42 ∧ m = 1 then (1 : ℚ) else 0) 1 n) ∧
    ((run_monte_carlo_simulation_v1 (fun _ _ => (0 : ℚ))
        ⟨61, 62, 100, 0, 0, none, 1/10, 0, 4/100, .basic⟩ 2
        ⟨fun _ => 0, 0⟩).get? 1).map TrialRecordV1.balance_at_retirement ≠
      ((run_monte_carlo_simulation_v1
          (fun s m => if s = 42 ∧ m = 1 then (1 : ℚ) else 0)
          ⟨61, 62, 100, 0, 0, none, 1/10, 0, 4/100, .basic⟩ 2
          ⟨fun _ => 0, 0⟩).get? 1).map TrialRecordV1.balance_at_retirement := by
  constructor
  · intro n
    norm_num
  · have h2 : ∀ (M : MCParamsV1) (g : RNG),
        mcRunV1 M 2 g =
          [(mcTrialV1 M g).1, (mcTrialV1 M (mcTrialV1 M g).2).1] :=
      fun M g => rfl
    have hget : ∀ a b : TrialRecordV1, ([a, b].get? 1) = some b :=
      fun a b => rfl
    have hmap : ∀ r : TrialRecordV1,
        (some r).map TrialRecordV1.balance_at_retirement =
          some r.balance_at_retirement := fun r => rfl
    have hbal : ∀ (M : MCParamsV1) (g : RNG),
        (mcTrialV1 M g).1.balance_at_retirement =
          accumV1 M (normalDraws M.working_apr (16 / 100)
            (M.retirement_age - M.current_age) g).1 M.current_principal :=
      fun M g => rfl
    have htl : ∀ (M : MCParamsV1) (g : RNG),
        (mcTrialV1 M g).2 =
          (normalDraws M.working_apr (16 / 100)
            (M.retirement_age - M.current_age) g).2 := fun M g => rfl
    simp only [run_monte_carlo_simulation_v1, h2, hget, hmap]
    rw [hbal, hbal, htl, htl]
    norm_num [normalDraws, normalDraw, accumV1]

/-- A trial's record does not depend on the incoming generator state: the
trial re-seeds with its index first. -/
theorem mcTrialG_fst (seedStream : ℕ → ℕ → ℚ) (M : MCParams) (sim : ℕ)
    (g : RNG) :
    (mcTrialG seedStream M sim g).1 = mcTrialRecord seedStream M sim := rfl

/-- The Monte Carlo loop produces exactly the list of per-index trial
records, independent of the threaded generator state. -/
theorem mcRun_eq_map (seedStream : ℕ → ℕ → ℚ) (M : MCParams) :
    ∀ (n sim : ℕ) (g : RNG),
      mcRun seedStream M sim n g =
        (List.range n).map (fun j => mcTrialRecord seedStream M (sim + j)) := by
  intro n
  induction n with
  | zero => intro sim g; rfl
  | succ n ih =>
    intro sim g
    show (mcTrialG seedStream M sim g).1 ::
        mcRun seedStream M (sim + 1) n (mcTrialG seedStream M sim g).2 = _
    rw [mcTrialG_fst, ih, List.range_succ_eq_map, List.map_cons,
      List.map_map]
    have htail : ((fun j => mcTrialRecord seedStream M (sim + j)) ∘
        Nat.succ) = fun j => mcTrialRecord seedStream M (sim + 1 + j) := by
      funext j
      simp only [Function.comp_apply]
      congr 1
      omega
    rw [htail]
    simp

/-- C5: the Monte Carlo engine re-seeds the generator with the trial index
at the start of every trial, so the record at position `i` is a function of
the parameters and `i` alone — independent of the incoming generator state,
of the trial count, and of which other trials ran — and two runs with
identical inputs produce identical record sequences. -/
theorem c5_seed_per_trial (seedStream : ℕ → ℕ → ℚ) (M : MCParams)
    (g g' : RNG) (n m i : ℕ) (hin : i < n) (him : i < m) :
    (run_monte_carlo_simulation seedStream M n g).get? i =
      some (mcTrialRecord seedStream M i) ∧
    (run_monte_carlo_simulation seedStream M n g).get? i =
      (run_monte_carlo_simulation seedStream M m g').get? i := by
  have h1 : ∀ (k : ℕ) (h : RNG), i < k →
      (run_monte_carlo_simulation seedStream M k h).get? i =
        some (mcTrialRecord seedStream M i) := by
    intro k h hik
    unfold run_monte_carlo_simulation
    rw [mcRun_eq_map, List.get?_map, List.get?_range hik]
    simp
  exact ⟨h1 n g hin, by rw [h1 n g hin, h1 m g' him]⟩

/-- Witness for C5: the record at index 1 agrees across two runs with
different trial counts and different incoming generator states. -/
theorem c5_seed_per_trial_witness :
    (run_monte_carlo_simulation (fun _ _ => 0)
        ⟨30, 62, 100000, 2000, 3000, some 67, 105/1000, 4/100, 45/1000,
          35/1000, false, 25/1000, 5/100, true, 50, 9/10, 1/2⟩
        2 ⟨fun _ => 0, 0⟩).get? 1 =
      some (mcTrialRecord (fun _ _ => 0)
        ⟨30, 62, 100000, 2000, 3000, some 67, 105/1000, 4/100, 45/1000,
          35/1000, false, 25/1000, 5/100, true, 50, 9/10, 1/2⟩ 1) ∧
    (run_monte_carlo_simulation (fun _ _ => 0)
        ⟨30, 62, 100000, 2000, 3000, some 67, 105/1000, 4/100, 45/1000,
          35/1000, false, 25/1000, 5/100, true, 50, 9/10, 1/2⟩
        2 ⟨fun _ => 0, 0⟩).get? 1 =
      (run_monte_carlo_simulation (fun _ _ => 0)
        ⟨30, 62, 100000, 2000, 3000, some 67, 105/1000, 4/100, 45/1000,
          35/1000, false, 25/1000, 5/100, true, 50, 9/10, 1/2⟩
        3 ⟨fun _ => 1, 5⟩).get? 1 :=
  c5_seed_per_trial (fun _ _ => 0)
    ⟨30, 62, 100000, 2000, 3000, some 67, 105/1000, 4/100, 45/1000,
      35/1000, false, 25/1000, 5/100, true, 50, 9/10, 1/2⟩
    ⟨fun _ => 0, 0⟩ ⟨fun _ => 1, 5⟩ 2 3 1 (by omega) (by omega)

end RetirementCalc
